import Mathlib

/-!
Verification of the stale-while-revalidate reviewer cache implemented in
src/background.ts of the show-pr-reviewers extension.

The TypeScript module is shallowly embedded as follows.

JavaScript objects of type Record from string to Reviewer array are embedded
as association lists (RMap below). Object spread, as in the merge expression
that spreads cachedData and then newData, is embedded by unionMap, which
starts from the first object and assigns every binding of the second in
order, exactly as the spread operator does (later bindings win, existing keys
keep their position, fresh keys are appended).

Effects are made explicit: getReviewers takes the decoded cache entry read at
request start, the clock values observed at the staleness check and at the
cache write, and the outcome of a call to fetchReviewersFromAPI, and returns
the response together with a record of the side effects the corresponding
execution performs (cache write, synchronous fetch, detached background
fetch). The detached continuation attached to the background fetch promise
(the then and catch handlers on lines 208 to 214 of background.ts) is
embedded separately as bgContinuation, since it runs after the response has
already been produced.
-/

namespace ShowPRReviewers

/-- A requested reviewer, as parsed from the GraphQL response. -/
structure Reviewer where
  login : String
  avatarUrl : String
deriving DecidableEq

/-- Embedding of the JavaScript type Record from string to Reviewer array. -/
abbrev RMap := List (String × List Reviewer)

/-- Property lookup on an embedded object: the value bound to key k. -/
def lookupR (m : RMap) (k : String) : Option (List Reviewer) :=
  (m.find? (fun p => p.1 = k)).map (fun p => p.2)

/-- Property assignment on an embedded object. If the key exists its value is
replaced in place, otherwise the binding is appended, matching JavaScript
object assignment semantics including key ordering. -/
def setKey (m : RMap) (k : String) (v : List Reviewer) : RMap :=
  if m.any (fun p => p.1 = k) then
    m.map (fun p => if p.1 = k then (k, v) else p)
  else
    m ++ [(k, v)]

/-- Embedding of the object spread expression spreading a and then b:
start from a copy of a and assign every binding of b in order, so values of
b win on key collisions. -/
def unionMap (a b : RMap) : RMap :=
  b.foldl (fun acc p => setKey acc p.1 p.2) a

/-- Embedding of the CacheEntry interface (background.ts lines 7 to 10). -/
structure CacheEntry where
  timestamp : Int
  data : RMap
deriving DecidableEq

/-- Embedding of the ReviewerResponse interface (background.ts lines 19 to
24). Optional fields that a given return site leaves absent are none. -/
structure ReviewerResponse where
  success : Bool
  data : Option RMap
  error : Option String
  fromCache : Option Bool
deriving DecidableEq

/-- Embedding of the constant CACHE_TTL_MS (background.ts line 27). -/
def CACHE_TTL_MS : Int := 5 * 60 * 1000

/-- Embedding of getCacheKey (background.ts lines 31 to 33). -/
def getCacheKey (owner repo : String) : String :=
  "reviewers:" ++ owner ++ "/" ++ repo

/-- Embedding of isCacheStale (background.ts lines 69 to 71), with the value
of Date.now at the call passed explicitly. -/
def isCacheStale (now : Int) (entry : CacheEntry) : Bool :=
  decide (now - entry.timestamp > CACHE_TTL_MS)

/-- Untyped JavaScript values, used to embed the unknown-shaped data read
back from chrome.storage. -/
inductive JSVal where
  | vnull
  | vundef
  | vnum (n : Int)
  | vstr (s : String)
  | vbool (b : Bool)
  | varr (elems : List JSVal)
  | vobj (fields : List (String × JSVal))

/-- The JavaScript `in` operator restricted to own fields: true exactly when
the value is an object literal carrying the named field. -/
def JSVal.hasField : JSVal → String → Bool
  | .vobj fields, k => fields.any (fun p => p.1 = k)
  | _, _ => false

/-- The JavaScript typeof test against the string "object". -/
def JSVal.isObjectType : JSVal → Bool
  | .vobj _ => true
  | .varr _ => true
  | .vnull => true
  | _ => false

/-- JavaScript truthiness. -/
def JSVal.truthy : JSVal → Bool
  | .vnull => false
  | .vundef => false
  | .vnum n => decide (n ≠ 0)
  | .vstr s => decide (s ≠ "")
  | .vbool b => b
  | .varr _ => true
  | .vobj _ => true

/-- Embedding of getCachedData (background.ts lines 36 to 52) applied to the
raw value the store returns for the partition key (none when the key is
absent). The source checks that the value is truthy, of object type, and has
both a timestamp and a data field, then returns it unchanged under an
unchecked cast; it never throws, and every rejected shape yields null. This
embedding is a total function returning the accepted value unchanged. -/
def getCachedData (raw : Option JSVal) : Option JSVal :=
  match raw with
  | none => none
  | some entry =>
    if entry.truthy && entry.isObjectType &&
        entry.hasField "timestamp" && entry.hasField "data" then
      some entry
    else
      none

/-- Embedding of getGitHubToken (background.ts lines 74 to 81) applied to the
raw value stored under the githubToken key. -/
def getGitHubToken (stored : Option JSVal) : Option String :=
  match stored with
  | some (JSVal.vstr s) => if s.length > 0 then some s else none
  | _ => none

/-- One requestedReviewer object of the GraphQL response; either field may be
absent. -/
structure RawReviewer where
  login : Option String
  avatarUrl : Option String

/-- One node of reviewRequests.nodes in the GraphQL response. -/
structure ReviewNode where
  requestedReviewer : Option RawReviewer

/-- The data the response carries for one aliased pull request. The optional
chain over reviewRequests and nodes iterates over nothing when a link is
absent, which coincides with iterating over an empty list, so the chain is
embedded as a plain node list. -/
structure PRData where
  nodes : List ReviewNode

/-- The environment a call to fetchReviewersFromAPI runs against: the raw
stored token, the transport outcome, and the decoded JSON body. repoData
embeds the optional chain json.data then repository; its list is indexed by
the positional alias, so position i holds the value of the field named pr i,
or none when that alias is absent from the response. -/
structure FetchEnv where
  tokenRaw : Option JSVal
  responseOk : Bool
  responseStatus : Nat
  graphqlErrors : Option String
  repoData : Option (List (Option PRData))

/-- Parsing of one review node (background.ts lines 156 to 168): a node is
kept when its requestedReviewer is present with a truthy login, and a falsy
avatarUrl normalizes to the empty string. -/
def parseReviewer (n : ReviewNode) : Option Reviewer :=
  match n.requestedReviewer with
  | none => none
  | some r =>
    match r.login with
    | none => none
    | some l =>
      if l = "" then none
      else some ⟨l, r.avatarUrl.getD ""⟩

/-- Parsing of the repository object into the result record (background.ts
lines 148 to 172): each requested number whose positional alias is present
contributes its parsed reviewer list under the number rendered as a string;
absent aliases are skipped, and an absent repository yields the empty
record. -/
def parseRepoData (rd : Option (List (Option PRData))) (prNumbers : List Nat) : RMap :=
  match rd with
  | none => []
  | some prList =>
    prNumbers.enum.foldl
      (fun acc p =>
        match (prList.get? p.1).join with
        | some prData => setKey acc (toString p.2) (prData.nodes.filterMap parseReviewer)
        | none => acc)
      []

/-- Embedding of fetchReviewersFromAPI (background.ts lines 115 to 175).
Throws are embedded as error results carrying the thrown message: a missing
token, a non-ok transport status, and a truthy errors field of the JSON body
each abort with their respective message, and otherwise the parsed record is
returned. -/
def fetchReviewersFromAPI (env : FetchEnv) (prNumbers : List Nat) : Except String RMap :=
  match getGitHubToken env.tokenRaw with
  | none => .error "GitHub token not configured"
  | some _ =>
    if !env.responseOk then
      .error ("GitHub API error: " ++ toString env.responseStatus)
    else
      match env.graphqlErrors with
      | some m => .error ("GraphQL error: " ++ m)
      | none => .ok (parseRepoData env.repoData prNumbers)

/-- The observable outcome of one getReviewers invocation: the response sent
to the caller, the cache entry persisted on the synchronous path if any, the
argument of the awaited synchronous fetch if one is issued, and the argument
of the detached background fetch if one is fired. -/
structure GROutcome where
  response : ReviewerResponse
  write : Option CacheEntry
  syncFetch : Option (List Nat)
  bgFetch : Option (List Nat)
deriving DecidableEq

/-- The hasAllData flag of getReviewers (background.ts lines 189 to 198):
every requested number is present as a key of the cached record. An empty
array value is a JavaScript object and hence truthy, so presence of the key
suffices. -/
def hasAllData (data : RMap) (prNumbers : List Nat) : Bool :=
  prNumbers.all (fun n => (lookupR data (toString n)).isSome)

/-- The filteredCache record of getReviewers (background.ts lines 188 to
198): the cached record restricted to the requested numbers whose key is
present, built by object assignment in request order. -/
def filterCache (data : RMap) (prNumbers : List Nat) : RMap :=
  prNumbers.foldl
    (fun acc n =>
      match lookupR data (toString n) with
      | some v => setKey acc (toString n) v
      | none => acc)
    []

/-- The data of the cache entry in scope at the synchronous path, or the
empty record when no entry was decoded (background.ts line 225). -/
def cacheDataOrEmpty : Option CacheEntry → RMap
  | some entry => entry.data
  | none => []

/-- The synchronous tail of getReviewers (background.ts lines 220 to 234):
await the fetch; on success persist the spread of the snapshot data under
the fresh data with a fresh timestamp and answer with exactly the fetched
record, on failure answer with the thrown message and write nothing. -/
def syncFetchPath (existingData : RMap) (writeTime : Int)
    (fetch : Except String RMap) (prNumbers : List Nat) : GROutcome :=
  match fetch with
  | .ok d =>
    { response := ⟨true, some d, none, some false⟩,
      write := some ⟨writeTime, unionMap existingData d⟩,
      syncFetch := some prNumbers,
      bgFetch := none }
  | .error m =>
    { response := ⟨false, none, some m, none⟩,
      write := none,
      syncFetch := some prNumbers,
      bgFetch := none }

/-- Embedding of getReviewers (background.ts lines 178 to 235). cachedEntry
is the entry decoded at request start, now is the clock at the staleness
check, writeTime the clock at a synchronous-path write, and fetch the
outcome a fetchReviewersFromAPI call would settle with. The detached
continuation of the background fetch is bgContinuation below; here only the
firing of that fetch is recorded. -/
def getReviewers (cachedEntry : Option CacheEntry) (now writeTime : Int)
    (fetch : Except String RMap) (prNumbers : List Nat) : GROutcome :=
  match cachedEntry with
  | some entry =>
    if hasAllData entry.data prNumbers && !(isCacheStale now entry) then
      { response := ⟨true, some (filterCache entry.data prNumbers), none, some true⟩,
        write := none, syncFetch := none, bgFetch := none }
    else if hasAllData entry.data prNumbers then
      { response := ⟨true, some (filterCache entry.data prNumbers), none, some true⟩,
        write := none, syncFetch := none, bgFetch := some prNumbers }
    else
      syncFetchPath entry.data writeTime fetch prNumbers
  | none => syncFetchPath [] writeTime fetch prNumbers

/-- Embedding of the continuation attached to the detached background fetch
(background.ts lines 208 to 214). It closes over the data of the cache entry
read at request start; on success it persists the spread of that snapshot
under the fresh data with the clock at the write, and on failure it only
hands the message to the logger. The pair returned is the persisted entry if
any together with the logged message if any. -/
def bgContinuation (snapshotData : RMap) (fetch : Except String RMap)
    (writeTime : Int) : Option CacheEntry × Option String :=
  match fetch with
  | .ok newData => (some ⟨writeTime, unionMap snapshotData newData⟩, none)
  | .error m => (none, some m)

/-- Condition under which getReviewers reaches its synchronous tail: no
entry was decoded, or the decoded entry does not cover every requested
number. -/
def coversAll (cachedEntry : Option CacheEntry) (prNumbers : List Nat) : Bool :=
  match cachedEntry with
  | some entry => hasAllData entry.data prNumbers
  | none => false

/-- Does a possibly-absent persisted entry keep the key k: holds vacuously
when nothing is persisted. -/
def writePreservesKey (w : Option CacheEntry) (k : String) : Bool :=
  match w with
  | some entry => (lookupR entry.data k).isSome
  | none => true

/-- Raw stored values that getCachedData must reject: the value is absent,
or it lacks an own timestamp field, or it lacks an own data field. -/
def missingCacheFields (raw : Option JSVal) : Bool :=
  match raw with
  | none => true
  | some v => !(v.hasField "timestamp") || !(v.hasField "data")

theorem lookupR_isSome_iff (m : RMap) (k : String) :
    (lookupR m k).isSome = true ↔ ∃ p ∈ m, p.1 = k := by
  simp [lookupR, List.find?_isSome]

theorem exists_key_setKey (m : RMap) (k k2 : String) (v : List Reviewer)
    (h : ∃ p ∈ m, p.1 = k) : ∃ p ∈ setKey m k2 v, p.1 = k := by
  obtain ⟨p, hp, hk⟩ := h
  unfold setKey
  split
  · refine ⟨if p.1 = k2 then (k2, v) else p, List.mem_map_of_mem _ hp, ?_⟩
    by_cases h2 : p.1 = k2
    · simp [h2]
      exact h2 ▸ hk
    · simp [h2]
      exact hk
  · exact ⟨p, List.mem_append_left _ hp, hk⟩

theorem exists_key_unionMap (a b : RMap) (k : String)
    (h : ∃ p ∈ a, p.1 = k) : ∃ p ∈ unionMap a b, p.1 = k := by
  induction b generalizing a with
  | nil => exact h
  | cons q rest ih => exact ih (setKey a q.1 q.2) (exists_key_setKey a k q.1 q.2 h)

theorem lookupR_isSome_unionMap_left (a b : RMap) (k : String)
    (h : (lookupR a k).isSome = true) :
    (lookupR (unionMap a b) k).isSome = true := by
  rw [lookupR_isSome_iff] at h ⊢
  exact exists_key_unionMap a b k h

/-- C2: whenever the requested numbers are not all present as keys of the
cached data (in particular when no cache entry was decoded), getReviewers
performs a synchronous fetch of the requested numbers, and on success it
persists the previously cached data spread under the freshly fetched data
with a fresh timestamp, while the caller receives success with fromCache
false carrying exactly the freshly fetched record, not the merged cache. -/
theorem c2_partial_coverage_sync_fetch (cachedEntry : Option CacheEntry)
    (now writeTime : Int) (newData : RMap) (prNumbers : List Nat)
    (hMiss : coversAll cachedEntry prNumbers = false) :
    getReviewers cachedEntry now writeTime (.ok newData) prNumbers =
      { response := ⟨true, some newData, none, some false⟩,
        write := some ⟨writeTime, unionMap (cacheDataOrEmpty cachedEntry) newData⟩,
        syncFetch := some prNumbers,
        bgFetch := none } := by
  cases cachedEntry with
  | none => rfl
  | some entry =>
    have h : hasAllData entry.data prNumbers = false := by
      simpa [coversAll] using hMiss
    simp [getReviewers, h, syncFetchPath, cacheDataOrEmpty]

/-- Witness for C2: the cache holds only number 1, the request asks for 1
and 2, so a synchronous fetch runs; the persisted record keeps number 1 and
gains number 2, while the response carries only the fetched record. -/
theorem c2_partial_coverage_sync_fetch_witness :
    getReviewers (some ⟨0, [("1", [])]⟩) 10 20 (.ok [("2", [])]) [1, 2] =
      { response := ⟨true, some [("2", [])], none, some false⟩,
        write := some ⟨20, unionMap (cacheDataOrEmpty (some ⟨0, [("1", [])]⟩)) [("2", [])]⟩,
        syncFetch := some [1, 2],
        bgFetch := none } :=
  c2_partial_coverage_sync_fetch (some ⟨0, [("1", [])]⟩) 10 20 [("2", [])] [1, 2] (by decide)

/-- C3: when the cache entry covers every requested number but is stale,
getReviewers answers success with the cached data restricted to the
requested numbers and fromCache true, for every possible outcome of the
fetch (so the response never waits on the fetch settling), writes nothing on
the request path, and fires exactly one background fetch whose argument is
exactly the requested numbers. -/
theorem c3_stale_covered_serves_cache_and_fires_bg (entry : CacheEntry)
    (now writeTime : Int) (fetch : Except String RMap) (prNumbers : List Nat)
    (hAll : hasAllData entry.data prNumbers = true)
    (hStale : isCacheStale now entry = true) :
    getReviewers (some entry) now writeTime fetch prNumbers =
      { response := ⟨true, some (filterCache entry.data prNumbers), none, some true⟩,
        write := none, syncFetch := none, bgFetch := some prNumbers } := by
  simp [getReviewers, hAll, hStale]

/-- Witness for C3: an entry six minutes old covering number 1; the request
for number 1 is served from cache and fires one background fetch of [1],
here with a fetch outcome that is an error, which the response ignores. -/
theorem c3_stale_covered_serves_cache_and_fires_bg_witness :
    getReviewers (some ⟨0, [("1", [])]⟩) 360000 7 (.error "down") [1] =
      { response := ⟨true, some (filterCache [("1", [])] [1]), none, some true⟩,
        write := none, syncFetch := none, bgFetch := some [1] } :=
  c3_stale_covered_serves_cache_and_fires_bg ⟨0, [("1", [])]⟩ 360000 7 (.error "down") [1]
    (by decide) (by decide)

/-- C4: the TTL constant is 300000 milliseconds, and when the cache entry
covers every requested number and is not stale, getReviewers answers
success with the cached data restricted to the requested numbers and
fromCache true, for every possible fetch outcome, and issues neither a
synchronous nor a background fetch and no write. -/
theorem c4_fresh_covered_no_fetch (entry : CacheEntry)
    (now writeTime : Int) (fetch : Except String RMap) (prNumbers : List Nat)
    (hAll : hasAllData entry.data prNumbers = true)
    (hFresh : now - entry.timestamp ≤ CACHE_TTL_MS) :
    CACHE_TTL_MS = 300000 ∧
    getReviewers (some entry) now writeTime fetch prNumbers =
      { response := ⟨true, some (filterCache entry.data prNumbers), none, some true⟩,
        write := none, syncFetch := none, bgFetch := none } := by
  have h2 : now - entry.timestamp ≤ 300000 := by
    simpa [CACHE_TTL_MS] using hFresh
  have hs : isCacheStale now entry = false := by
    simp [isCacheStale, CACHE_TTL_MS]
    omega
  exact ⟨rfl, by simp [getReviewers, hAll, hs]⟩

/-- Witness for C4: an entry four minutes old covering number 1; the request
for number 1 is served from cache with no fetch of either kind. -/
theorem c4_fresh_covered_no_fetch_witness :
    CACHE_TTL_MS = 300000 ∧
    getReviewers (some ⟨0, [("1", [])]⟩) 240000 7 (.error "down") [1] =
      { response := ⟨true, some (filterCache [("1", [])] [1]), none, some true⟩,
        write := none, syncFetch := none, bgFetch := none } :=
  c4_fresh_covered_no_fetch ⟨0, [("1", [])]⟩ 240000 7 (.error "down") [1]
    (by decide) (by decide)

/-- C5: neither cache-writing operation of getReviewers evicts a key of the
previously persisted record. Whatever the synchronous path persists on a
successful fetch, and whatever the background continuation persists on a
successful refresh, every key of the snapshot data survives into the
persisted data; in particular fetching a subset of numbers never removes
cached numbers outside that subset. -/
theorem c5_writes_never_evict_cached_keys (cached : CacheEntry)
    (now writeTime : Int) (newData : RMap) (prNumbers : List Nat) (k : String)
    (hk : (lookupR cached.data k).isSome = true) :
    writePreservesKey (getReviewers (some cached) now writeTime (.ok newData) prNumbers).write k
      = true ∧
    writePreservesKey (bgContinuation cached.data (.ok newData) writeTime).1 k = true := by
  have hu := lookupR_isSome_unionMap_left cached.data newData k hk
  constructor
  · by_cases hA : hasAllData cached.data prNumbers <;>
      by_cases hS : isCacheStale now cached <;>
        simp [getReviewers, hA, hS, syncFetchPath, writePreservesKey, hu]
  · simp [bgContinuation, writePreservesKey, hu]

/-- Witness for C5: numbers 1 and 2 were cached by earlier fetches; a fetch
for number 3 alone persists a record that still carries key 1 (and by the
same theorem at key 2, key 2) on both write paths. -/
theorem c5_writes_never_evict_cached_keys_witness :
    writePreservesKey
      (getReviewers (some ⟨0, [("1", []), ("2", [])]⟩) 500000 7 (.ok [("3", [])]) [3]).write "1"
      = true ∧
    writePreservesKey (bgContinuation [("1", []), ("2", [])] (.ok [("3", [])]) 7).1 "1" = true :=
  c5_writes_never_evict_cached_keys ⟨0, [("1", []), ("2", [])]⟩ 500000 7 [("3", [])] [3] "1"
    (by decide)

/-- C6: when getReviewers takes the synchronous path and the fetch fails for
any of the reasons fetchReviewersFromAPI can fail with (missing token,
transport status not ok, or an error reported in the GraphQL body), the
thrown message is a non-empty string, the caller receives a failure response
carrying that message, and nothing is written to the cache. -/
theorem c6_sync_failure_returns_error_no_write (env : FetchEnv)
    (cachedEntry : Option CacheEntry) (now writeTime : Int)
    (m : String) (prNumbers : List Nat)
    (hMiss : coversAll cachedEntry prNumbers = false)
    (hFail : fetchReviewersFromAPI env prNumbers = .error m) :
    m ≠ "" ∧
    getReviewers cachedEntry now writeTime (.error m) prNumbers =
      { response := ⟨false, none, some m, none⟩,
        write := none, syncFetch := some prNumbers, bgFetch := none } := by
  constructor
  · unfold fetchReviewersFromAPI at hFail
    cases hTok : getGitHubToken env.tokenRaw with
    | none =>
      rw [hTok] at hFail
      injection hFail with h
      subst h
      decide
    | some t =>
      rw [hTok] at hFail
      by_cases hOk : env.responseOk
      · simp [hOk] at hFail
        cases hErr : env.graphqlErrors with
        | none => rw [hErr] at hFail; exact absurd hFail (by simp)
        | some me =>
          rw [hErr] at hFail
          injection hFail with h
          subst h
          intro hemp
          have h2 := congrArg String.length hemp
          rw [String.length_append] at h2
          have h3 : ("GraphQL error: ").length = 15 := rfl
          have h0 : ("" : String).length = 0 := rfl
          rw [h3, h0] at h2
          omega
      · simp [hOk] at hFail
        subst hFail
        intro hemp
        have h2 := congrArg String.length hemp
        rw [String.length_append] at h2
        have h3 : ("GitHub API error: ").length = 18 := rfl
        have h0 : ("" : String).length = 0 := rfl
        rw [h3, h0] at h2
        omega
  · cases cachedEntry with
    | none => rfl
    | some entry =>
      have h : hasAllData entry.data prNumbers = false := by
        simpa [coversAll] using hMiss
      simp [getReviewers, h, syncFetchPath]

/-- Witness for C6: no token is configured and the cache is empty; the
request for number 1 fails with the non-empty token message and persists
nothing. -/
theorem c6_sync_failure_returns_error_no_write_witness :
    "GitHub token not configured" ≠ "" ∧
    getReviewers none 0 7 (.error "GitHub token not configured") [1] =
      { response := ⟨false, none, some "GitHub token not configured", none⟩,
        write := none, syncFetch := some [1], bgFetch := none } :=
  c6_sync_failure_returns_error_no_write
    ⟨none, true, 200, none, none⟩ none 0 7 "GitHub token not configured" [1]
    (by decide) (by rfl)

/-- C7: an explicitly cached empty reviewer list counts as present. For
every cached record binding the key 5 to the empty list under a non-stale
timestamp, requesting exactly number 5 is answered from cache with that
empty binding and triggers no fetch of either kind. -/
theorem c7_empty_list_counts_as_cached (data : RMap) (ts now writeTime : Int)
    (fetch : Except String RMap)
    (h5 : lookupR data "5" = some [])
    (hFresh : now - ts ≤ CACHE_TTL_MS) :
    getReviewers (some ⟨ts, data⟩) now writeTime fetch [5] =
      { response := ⟨true, some [("5", [])], none, some true⟩,
        write := none, syncFetch := none, bgFetch := none } := by
  have t5 : toString (5 : Nat) = "5" := rfl
  have hAll : hasAllData data [5] = true := by
    simp [hasAllData, t5, h5]
  have h2 : now - ts ≤ 300000 := by
    simpa [CACHE_TTL_MS] using hFresh
  have hs : isCacheStale now ⟨ts, data⟩ = false := by
    simp [isCacheStale, CACHE_TTL_MS]
    omega
  have hf : filterCache data [5] = [("5", [])] := by
    simp [filterCache, t5, h5, setKey]
  simp [getReviewers, hAll, hs, hf]

/-- Witness for C7: a record caching the empty list for number 5 alongside
number 6, read within the TTL, answers the request for 5 alone from cache
with no fetch. -/
theorem c7_empty_list_counts_as_cached_witness :
    getReviewers (some ⟨0, [("6", [⟨"a", "u"⟩]), ("5", [])]⟩) 100 7 (.error "down") [5] =
      { response := ⟨true, some [("5", [])], none, some true⟩,
        write := none, syncFetch := none, bgFetch := none } :=
  c7_empty_list_counts_as_cached [("6", [⟨"a", "u"⟩]), ("5", [])] 0 100 7 (.error "down")
    (by decide) (by decide)

/-- C8: on a failed background refresh the continuation persists nothing and
only hands the message to the logger, and the response of the request that
fired it is the same whatever the fetch outcome is, so the failure is never
surfaced to the original caller. -/
theorem c8_bg_failure_logged_only_no_write (entry : CacheEntry)
    (now writeTime : Int) (m : String) (fetchA fetchB : Except String RMap)
    (prNumbers : List Nat)
    (hAll : hasAllData entry.data prNumbers = true)
    (hStale : isCacheStale now entry = true) :
    bgContinuation entry.data (.error m) writeTime = (none, some m) ∧
    (getReviewers (some entry) now writeTime fetchA prNumbers).response =
      (getReviewers (some entry) now writeTime fetchB prNumbers).response := by
  refine ⟨rfl, ?_⟩
  simp [getReviewers, hAll, hStale]

/-- Witness for C8: a stale covering entry; the failed refresh writes
nothing and logs the message, and the response is the same under a failed
and a successful fetch outcome. -/
theorem c8_bg_failure_logged_only_no_write_witness :
    bgContinuation [("1", [])] (.error "down") 7 = (none, some "down") ∧
    (getReviewers (some ⟨0, [("1", [])]⟩) 360000 7 (.error "down") [1]).response =
      (getReviewers (some ⟨0, [("1", [])]⟩) 360000 7 (.ok [("1", [])]) [1]).response :=
  c8_bg_failure_logged_only_no_write ⟨0, [("1", [])]⟩ 360000 7 "down"
    (.error "down") (.ok [("1", [])]) [1] (by decide) (by decide)

/-- C9: decoding is total (getCachedData is a total function of the raw
stored value), every stored value that is absent or lacks the timestamp
field or the data field decodes to none, and with no decoded entry
getReviewers takes the full synchronous path: it issues a synchronous fetch
of exactly the requested numbers and no background fetch, for every fetch
outcome. -/
theorem c9_malformed_cache_is_cache_miss (raw : Option JSVal)
    (now writeTime : Int) (fetch : Except String RMap) (prNumbers : List Nat)
    (hBad : missingCacheFields raw = true) :
    getCachedData raw = none ∧
    (getReviewers none now writeTime fetch prNumbers).syncFetch = some prNumbers ∧
    (getReviewers none now writeTime fetch prNumbers).bgFetch = none := by
  refine ⟨?_, ?_, ?_⟩
  · cases raw with
    | none => rfl
    | some v =>
      simp [missingCacheFields] at hBad
      have hc : (v.truthy && v.isObjectType &&
          v.hasField "timestamp" && v.hasField "data") = false := by
        rcases hBad with h | h <;> simp [h]
      simp [getCachedData, hc]
  · cases fetch <;> rfl
  · cases fetch <;> rfl

/-- Witness for C9: a stored object carrying a timestamp field but no data
field decodes to none, and the no-cache request for numbers 1 and 2 issues
the synchronous fetch of [1, 2] and no background fetch. -/
theorem c9_malformed_cache_is_cache_miss_witness :
    getCachedData (some (JSVal.vobj [("timestamp", JSVal.vnum 3)])) = none ∧
    (getReviewers none 0 7 (.ok []) [1, 2]).syncFetch = some [1, 2] ∧
    (getReviewers none 0 7 (.ok []) [1, 2]).bgFetch = none :=
  c9_malformed_cache_is_cache_miss (some (JSVal.vobj [("timestamp", JSVal.vnum 3)]))
    0 7 (.ok []) [1, 2] (by rfl)

/-- C10: validation of a stored cache entry is shallow. Every object value
carrying both a timestamp field and a data field is returned by
getCachedData unchanged, whatever the types of those fields are; the
object type and truthiness checks of the source hold for every object
literal, so no type check on the two fields is performed. -/
theorem c10_shallow_validation (fields : List (String × JSVal))
    (ht : JSVal.hasField (JSVal.vobj fields) "timestamp" = true)
    (hd : JSVal.hasField (JSVal.vobj fields) "data" = true) :
    getCachedData (some (JSVal.vobj fields)) = some (JSVal.vobj fields) := by
  simp [getCachedData, JSVal.truthy, JSVal.isObjectType, ht, hd]

/-- Witness for C10: an object whose timestamp is a string and whose data is
a number is accepted as a cache entry rather than rejected. -/
theorem c10_shallow_validation_witness :
    getCachedData (some (JSVal.vobj [("timestamp", JSVal.vstr "soon"), ("data", JSVal.vnum 3)]))
      = some (JSVal.vobj [("timestamp", JSVal.vstr "soon"), ("data", JSVal.vnum 3)]) :=
  c10_shallow_validation [("timestamp", JSVal.vstr "soon"), ("data", JSVal.vnum 3)]
    (by rfl) (by rfl)

/-- Property the spec asserts for the background merge, stated from the
wording of the spec for comparison with the source embedding: whatever
record currentData the store holds for the partition at the moment the
background fetch settles (another writer may have replaced the entry between
the snapshot read and the merge), the persisted entry is currentData spread
under the fetched data. The source continuation closes over the snapshot
read at request start and never re-reads the store, so it can only satisfy
this when the two coincide. -/
def specBgMergeUsesCurrentStore : Prop :=
  ∀ (snapshotData currentData newData : RMap) (writeTime : Int),
    (bgContinuation snapshotData (.ok newData) writeTime).1 =
      some ⟨writeTime, unionMap currentData newData⟩

/-- Counterexample for C1: the claim that the background merge unions the
fetched data into the current stored record fails on the code. With snapshot
data empty, a store that meanwhile holds number 2, and fetched data for
number 1, the continuation persists only number 1 and drops number 2, while
the claim demands both. -/
theorem c1_counterexample_bg_merge_ignores_current_store :
    ¬ specBgMergeUsesCurrentStore := by
  intro h
  have h2 := h [] [("2", [])] [("1", [])] 0
  have h3 : (bgContinuation [] (.ok [("1", [])]) 0).1 ≠
      some ⟨0, unionMap [("2", [])] [("1", [])]⟩ := by decide
  exact h3 h2

/-- C1 as amended: when a stale but fully covering cache entry triggers a
background refresh whose fetch settles successfully, the persisted entry is
the snapshot of the stored data read at request start (not the store content
at merge time, which the continuation never re-reads) spread under the
freshly fetched data, new values winning on key collisions, and its
timestamp is the clock value at that write; the refresh fired is exactly one
background fetch of the requested numbers. -/
theorem c1_bg_merge_uses_snapshot (entry : CacheEntry) (now writeTime : Int)
    (newData : RMap) (prNumbers : List Nat)
    (hAll : hasAllData entry.data prNumbers = true)
    (hStale : isCacheStale now entry = true) :
    (getReviewers (some entry) now writeTime (.ok newData) prNumbers).bgFetch
      = some prNumbers ∧
    bgContinuation entry.data (.ok newData) writeTime =
      (some ⟨writeTime, unionMap entry.data newData⟩, none) := by
  refine ⟨?_, rfl⟩
  simp [getReviewers, hAll, hStale]

/-- Witness for the amended C1: a stale entry covering number 1 fires the
background fetch of [1], and the successful refresh persists the snapshot
spread under the fetched record with the write-time timestamp. -/
theorem c1_bg_merge_uses_snapshot_witness :
    (getReviewers (some ⟨0, [("1", [])]⟩) 360000 7 (.ok [("1", [⟨"a", "u"⟩])]) [1]).bgFetch
      = some [1] ∧
    bgContinuation [("1", [])] (.ok [("1", [⟨"a", "u"⟩])]) 7 =
      (some ⟨7, unionMap [("1", [])] [("1", [⟨"a", "u"⟩])]⟩, none) :=
  c1_bg_merge_uses_snapshot ⟨0, [("1", [])]⟩ 360000 7 [("1", [⟨"a", "u"⟩])] [1]
    (by decide) (by decide)

end ShowPRReviewers
